import Mathlib

/-!
Verification of the AlexisHR MCP gateway (michlo23/mcp-alexis-server).

Shallow embedding of the server wiring in `src/index.ts` (the variant that
keeps a `sessionTokens` map for the SSE transport), the JWT middleware in
`src/auth/jwtAuth.ts`, the tool handlers in `src/tools/*`, the filter
translation in `src/api/alexisApi.ts`, and the demographic aggregation in
`src/utils/countUtils.ts`.

JavaScript-specific semantics (truthiness of `undefined` and of the empty
string, `String.prototype.split`, `parseInt`, `Date` normalization in
`setDate`) are modelled explicitly by the `js...` helpers below.
-/

namespace AlexisMcp

/-! ## String primitives

Implemented over character lists so that every definition evaluates
inside the kernel (concrete witnesses are checked with `decide`). -/

/-- JS `String.prototype.split` with a one-character separator. -/
def splitCharAux (sep : Char) : List Char → List Char → List (List Char)
  | [], acc => [acc.reverse]
  | c :: rest, acc =>
      if c = sep then acc.reverse :: splitCharAux sep rest []
      else splitCharAux sep rest (c :: acc)

/-- Split a string at every occurrence of `sep`, keeping empty chunks,
exactly like JS `s.split(sep)`. -/
def splitChar (sep : Char) (s : String) : List (List Char) :=
  splitCharAux sep s.toList []

/-- Whether the first list is a prefix of the second. -/
def hasPrefixChars : List Char → List Char → Bool
  | [], _ => true
  | _ :: _, [] => false
  | p :: ps, c :: cs => p == c && hasPrefixChars ps cs

/-- `s.startsWith(pre)`. -/
def strStartsWith (s pre : String) : Bool :=
  hasPrefixChars pre.toList s.toList

def allDigits : List Char → Bool
  | [] => true
  | c :: rest => c.isDigit && allDigits rest

def digitsVal : List Char → Nat → Nat
  | [], acc => acc
  | c :: rest, acc => digitsVal rest (acc * 10 + (c.toNat - 48))

/-- The numeric value of a nonempty all-digit character list. -/
def digitsToNat? : List Char → Option Nat
  | [] => none
  | cs => if allDigits cs then some (digitsVal cs 0) else none

def digitChar (n : Nat) : Char := Char.ofNat (48 + n)

def natDigits : Nat → Nat → List Char
  | 0, _ => []
  | fuel + 1, n =>
      if n = 0 then [] else natDigits fuel (n / 10) ++ [digitChar (n % 10)]

/-- Decimal rendering of a natural number. -/
def natToStr (n : Nat) : String :=
  if n = 0 then ("0") else String.mk (natDigits (n + 1) n)

/-- Decimal rendering of a nonnegative integer (the calendar components
rendered below are always nonnegative). -/
def intToStr (n : Int) : String := natToStr n.toNat

def dropWhileSpace : List Char → List Char
  | [] => []
  | c :: rest => if c.isWhitespace then dropWhileSpace rest else c :: rest

/-- JS `s.trim()`. -/
def trimChars (cs : List Char) : List Char :=
  (dropWhileSpace (dropWhileSpace cs).reverse).reverse

/-! ## JavaScript truthiness and header helpers -/

/-- JS truthiness of a possibly-undefined string: `undefined` and the empty
string are falsy, every other string is truthy. -/
def jsFalsy : Option String → Bool
  | none => true
  | some s => s == ""

/-- JS `header.split(' ')[1]`: the second space-separated chunk of a string,
`undefined` (here `none`) when the string has no second chunk. -/
def splitSecond (s : String) : Option String :=
  match (splitChar ' ' s).get? 1 with
  | some cs => some (String.mk cs)
  | none => none

/-- Token extraction as done by the route handlers:
`authHeader?.split(' ')[1]` on an optional `Authorization` header. -/
def headerToken (authorization : Option String) : Option String :=
  authorization.bind splitSecond

/-! ## Association lists: the shape of the JS objects and the `Map`
used as session registries (`transports.streamable`, `transports.sse`,
`sessionTokens`). -/

/-- A JS object used as a string-keyed dictionary. -/
abbrev AList (V : Type) := List (String × V)

/-- Key lookup, `obj[key]` / `map.get(key)`; `none` models `undefined`. -/
def alookup {V : Type} : AList V → String → Option V
  | [], _ => none
  | (k, v) :: rest, key => if k = key then some v else alookup rest key

/-- Key insertion or overwrite, `obj[key] = v` / `map.set(key, v)`. -/
def aset {V : Type} : AList V → String → V → AList V
  | [], key, v => [(key, v)]
  | (k, w) :: rest, key, v =>
      if k = key then (k, v) :: rest else (k, w) :: aset rest key v

/-- Key removal, `delete obj[key]` / `map.delete(key)`; a no-op on a
missing key, exactly like the JS operator (which also cannot remove an
inherited property, so own-entry removal is the whole story). -/
def aerase {V : Type} : AList V → String → AList V
  | [], _ => []
  | (k, v) :: rest, key =>
      if k = key then aerase rest key else (k, v) :: aerase rest key

/-- The property names every object literal inherits from
`Object.prototype`: bracket lookup on a plain object finds these even
when no own entry was ever stored, and each of them is a truthy value
(a function, or `Object.prototype` itself for `__proto__`). -/
def protoKeys : List String :=
  [("constructor"), ("hasOwnProperty"), ("isPrototypeOf"),
   ("propertyIsEnumerable"), ("toLocaleString"), ("toString"), ("valueOf"),
   ("__proto__"), ("__defineGetter__"), ("__defineSetter__"),
   ("__lookupGetter__"), ("__lookupSetter__")]

/-- Whether a key names an inherited `Object.prototype` property. -/
def protoKey (key : String) : Bool := protoKeys.contains key

/-- The outcome of JS bracket lookup `obj[key]` on an object literal used
as a dictionary: an own entry (possibly shadowing the prototype), an
inherited truthy `Object.prototype` member, or `undefined`. -/
inductive JsLookup (V : Type) where
  | missing
  | protoProp
  | ownProp (v : V)
deriving DecidableEq

/-- JS `obj[key]` including the prototype chain: an own property wins,
otherwise an `Object.prototype` name yields the inherited (truthy)
member, otherwise `undefined`. -/
def jsIndex {V : Type} (l : AList V) (key : String) : JsLookup V :=
  match alookup l key with
  | some v => JsLookup.ownProp v
  | none => if protoKey key then JsLookup.protoProp else JsLookup.missing

/-! ## Data model: envelopes, contexts, transports, server state

From `src/index.ts` (sessionTokens variant): the two per-kind transport
registries, the `sessionTokens` map, and the JSON-RPC message body shape
the endpoints inspect (`jsonrpc`, `method`, `params.capability`,
`params.context`). -/

/-- The value the gateway or a client puts in `params.context`.
`jwtCtx t` is the object the streamable endpoint injects, with `jwtToken`
possibly `undefined`; `tokCtx t` is the object the legacy `/messages`
endpoint injects; `clientCtx s` stands for arbitrary client-supplied
context data. -/
inductive CtxVal where
  | jwtCtx (token : Option String)
  | tokCtx (token : String)
  | clientCtx (s : String)
deriving DecidableEq

/-- The fields of `params` the server wiring reads or writes. -/
structure EnvParams where
  capability : Option String := none
  context : Option CtxVal := none
deriving DecidableEq

/-- A parsed JSON-RPC message body as inspected by the endpoints. -/
structure Envelope where
  jsonrpc : Option String := none
  method : Option String := none
  reqId : Option String := none
  params : Option EnvParams := none
deriving DecidableEq

/-- An active transport binding instance; `tid` is the creation index, so
distinct creations give distinct handles. -/
structure Transport where
  tid : Nat
deriving DecidableEq

/-- The module-level mutable state of `src/index.ts`:
`transports.streamable`, `transports.sse`, `sessionTokens`, plus the
counter that hands out transport identities. -/
structure ServerState where
  streamable : AList Transport
  sse : AList Transport
  sessionTokens : AList String
  nextTid : Nat
deriving DecidableEq

/-- The server state at process start: all registries empty. -/
def initialState : ServerState :=
  { streamable := [], sse := [], sessionTokens := [], nextTid := 0 }

/-! ## Credential extractor middleware, `src/auth/jwtAuth.ts` -/

/-- A protocol-envelope error response: HTTP status plus the JSON-RPC
error object fields (the body also carries `jsonrpc` 2.0 and a null id). -/
structure AuthErr where
  status : Nat
  code : Int
  message : String
deriving DecidableEq

/-- The rejection produced by `validateJwtToken` on a missing or
non-Bearer `Authorization` header. -/
def authMissingErr : AuthErr :=
  { status := 401, code := -32001,
    message := "Authentication required. Missing or invalid JWT token." }

/-- The `validateJwtToken` middleware: rejects (returns `some` error) when
the `Authorization` header is absent or does not start with the Bearer
scheme; otherwise passes the request on (`none`). -/
def validateJwtToken (authorization : Option String) : Option AuthErr :=
  match authorization with
  | none => some authMissingErr
  | some h => if strStartsWith h ("Bearer ") then none else some authMissingErr

/-! ## Streamable HTTP endpoint, `app.post` on the `/mcp` path -/

/-- Outcome of the streamable `/mcp` handler: either the envelope is handed
to a transport (`sid` is the session id the response carries back in the
`Mcp-Session-Id` header) or a JSON-RPC-shaped client/server error is sent. -/
inductive McpResult where
  | dispatched (sid : String) (t : Transport) (env : Envelope)
  | clientError (status : Nat) (code : Int) (msg : String)
  | serverError (status : Nat) (code : Int) (msg : String)
deriving DecidableEq

/-- The `isInitRequest` test of the streamable endpoint:
`method === 'initialize' && jsonrpc === '2.0' && params && params.capability === 'tools'`. -/
def isInitRequest (body : Envelope) : Bool :=
  body.method == some ("initialize") && body.jsonrpc == some ("2.0") &&
  (match body.params with
   | some p => p.capability == some ("tools")
   | none => false)

/-- Context injection on the streamable endpoint:
`if (!messageBody.params) messageBody.params = ...empty...;` then
`messageBody.params.context = ...jwtToken: token...`, overwriting any
client-supplied context field. -/
def injectJwt (env : Envelope) (token : Option String) : Envelope :=
  let p := env.params.getD {}
  { env with params := some { p with context := some (CtxVal.jwtCtx token) } }

/-- The `app.post` handler on `/mcp` (streamable HTTP transport).
`freshId` stands for the session id `randomUUID` would mint; the SDK calls
`onsessioninitialized` with it while handling an initialization request,
which stores the new transport in `transports.streamable`, and echoes it
to the client. -/
def handleMcpPost (st : ServerState) (authorization mcpSessionId : Option String)
    (body : Envelope) (freshId : String) : ServerState × McpResult :=
  let token := headerToken authorization
  let sidStr := mcpSessionId.getD ""
  match (if jsFalsy mcpSessionId then JsLookup.missing
         else jsIndex st.streamable sidStr) with
  | JsLookup.ownProp t =>
      (st, McpResult.dispatched sidStr t (injectJwt body token))
  | JsLookup.protoProp =>
      -- an inherited Object.prototype member is truthy, so the reuse branch
      -- is taken with a non-transport value; `transport.handleRequest`
      -- throws and the catch answers with the 500 Internal Server Error
      (st, McpResult.serverError 500 (-32000) ("Internal Server Error"))
  | JsLookup.missing =>
      if jsFalsy mcpSessionId && isInitRequest body then
        let t : Transport := ⟨st.nextTid⟩
        let st2 := { st with streamable := aset st.streamable freshId t,
                             nextTid := st.nextTid + 1 }
        (st2, McpResult.dispatched freshId t (injectJwt body token))
      else
        (st, McpResult.clientError 400 (-32000)
          ("Bad Request: No valid session ID provided"))

/-! ## Legacy SSE endpoints, `app.get` on `/sse` and `app.post` on `/messages` -/

/-- Outcome of the `/sse` stream-open handler. -/
inductive SseResult where
  | unauthorized
  | streamOpened (sid : String) (t : Transport)
deriving DecidableEq

/-- The `app.get` handler on `/sse`: extracts the token, rejects with 401
when it is falsy, otherwise creates an `SSEServerTransport` (whose own
generated session id is `freshId`), registers it in `transports.sse`,
remembers the token in `sessionTokens`, and opens the stream. -/
def handleSse (st : ServerState) (authorization : Option String)
    (freshId : String) : ServerState × SseResult :=
  let token := headerToken authorization
  if jsFalsy token then (st, SseResult.unauthorized)
  else
    let t : Transport := ⟨st.nextTid⟩
    let st2 := { st with sse := aset st.sse freshId t,
                         sessionTokens := aset st.sessionTokens freshId (token.getD ""),
                         nextTid := st.nextTid + 1 }
    (st2, SseResult.streamOpened freshId t)

/-- Outcome of the `/messages` command-submit handler: `tokenUsed` is the
credential injected into `params.context` and used for the dispatch. -/
inductive MsgResult where
  | clientError (status : Nat) (msg : String)
  | dispatched (sid : String) (t : Transport) (env : Envelope) (tokenUsed : String)
  | serverError (status : Nat) (msg : String)
deriving DecidableEq

/-- Context injection on the `/messages` endpoint:
`req.body.params.context = ...token...`. -/
def injectTok (env : Envelope) (token : String) : Envelope :=
  let p := env.params.getD {}
  { env with params := some { p with context := some (CtxVal.tokCtx token) } }

/-- The `app.post` handler on `/messages`: requires a truthy `sessionId`
query parameter and a registered SSE transport for it; resolves the token
as the header token when truthy (updating `sessionTokens`), else the
stored token for the session, else rejects 401; injects the resolved
token into the body and hands it to the transport. -/
def handleMessages (st : ServerState) (querySessionId authorization : Option String)
    (body : Envelope) : ServerState × MsgResult :=
  if jsFalsy querySessionId then
    (st, MsgResult.clientError 400 ("No sessionId provided"))
  else
    let sid := querySessionId.getD ""
    match jsIndex st.sse sid with
    | JsLookup.missing =>
        (st, MsgResult.clientError 400 ("No transport found for sessionId"))
    | JsLookup.protoProp =>
        -- the inherited Object.prototype member passes the truthiness check,
        -- so token resolution still runs (including the sessionTokens
        -- update), and then `transport.handlePostMessage` throws: the catch
        -- answers with the 500 Internal Server Error
        let headerTok := headerToken authorization
        if jsFalsy headerTok then
          let stored := alookup st.sessionTokens sid
          if jsFalsy stored then
            (st, MsgResult.clientError 401 ("Unauthorized: No valid token found"))
          else
            (st, MsgResult.serverError 500 ("Internal Server Error"))
        else
          let tk := headerTok.getD ""
          ({ st with sessionTokens := aset st.sessionTokens sid tk },
           MsgResult.serverError 500 ("Internal Server Error"))
    | JsLookup.ownProp t =>
        let headerTok := headerToken authorization
        if jsFalsy headerTok then
          let stored := alookup st.sessionTokens sid
          if jsFalsy stored then
            (st, MsgResult.clientError 401 ("Unauthorized: No valid token found"))
          else
            (st, MsgResult.dispatched sid t (injectTok body (stored.getD ""))
              (stored.getD ""))
        else
          let tk := headerTok.getD ""
          ({ st with sessionTokens := aset st.sessionTokens sid tk },
           MsgResult.dispatched sid t (injectTok body tk) tk)

/-! ## Full request pipelines: middleware, then route handler

`app.use` mounts `validateJwtToken` on `/mcp`, `/sse` and `/messages`, so
every request to these paths passes through it before any route handler. -/

/-- A response after the middleware gate: either the middleware rejection,
or the route handler's own outcome. -/
inductive Gate (R : Type) where
  | rejected (e : AuthErr)
  | handled (r : R)
deriving DecidableEq

/-- Middleware followed by the streamable `/mcp` handler. -/
def pipelineMcp (st : ServerState) (authorization mcpSessionId : Option String)
    (body : Envelope) (freshId : String) : ServerState × Gate McpResult :=
  match validateJwtToken authorization with
  | some e => (st, Gate.rejected e)
  | none =>
      let r := handleMcpPost st authorization mcpSessionId body freshId
      (r.1, Gate.handled r.2)

/-- Middleware followed by the `/sse` stream-open handler. -/
def pipelineSse (st : ServerState) (authorization : Option String)
    (freshId : String) : ServerState × Gate SseResult :=
  match validateJwtToken authorization with
  | some e => (st, Gate.rejected e)
  | none =>
      let r := handleSse st authorization freshId
      (r.1, Gate.handled r.2)

/-- Middleware followed by the `/messages` command-submit handler. -/
def pipelineMessages (st : ServerState) (querySessionId authorization : Option String)
    (body : Envelope) : ServerState × Gate MsgResult :=
  match validateJwtToken authorization with
  | some e => (st, Gate.rejected e)
  | none =>
      let r := handleMessages st querySessionId authorization body
      (r.1, Gate.handled r.2)

/-! ## Session teardown

The close handlers (`res.on('close')` for SSE, `transport.onclose` for
streamable) delete the session entry from the matching registry with the
JS `delete` operator. -/

/-- The two transport kinds, each with its own registry. -/
inductive TransportKind where
  | streamableKind
  | sseKind
deriving DecidableEq

/-- The registry owned by a transport kind. -/
def registryOf (k : TransportKind) (st : ServerState) : AList Transport :=
  match k with
  | TransportKind.streamableKind => st.streamable
  | TransportKind.sseKind => st.sse

/-- The registry cleanup run by the close handlers:
`delete transports.streamable[sid]` or `delete transports.sse[sid]`.
A total function: like the JS `delete` operator it never raises. -/
def removeSession (k : TransportKind) (st : ServerState) (sid : String) : ServerState :=
  match k with
  | TransportKind.streamableKind => { st with streamable := aerase st.streamable sid }
  | TransportKind.sseKind => { st with sse := aerase st.sse sid }

/-- The context field of a dispatched envelope, `env.params.context`. -/
def envContextOf (env : Envelope) : Option CtxVal :=
  env.params.bind EnvParams.context

/-! ## Calendar arithmetic

The filter translation in `src/api/alexisApi.ts` manipulates JS `Date`
objects (`new Date(value)`, `setDate`, `toISOString`). Dates are modelled
at day granularity in UTC via the standard civil-calendar/epoch-day
conversion; `setDate` is calendar normalization: day-of-month `n` means
the first of the month plus `n - 1` days. -/

/-- Epoch-day number of a civil date, minus the day-of-month contribution:
`daysFromCivil y m d = civilBase y m + d`. Splitting the day off keeps the
arithmetic linear in `d`. -/
def civilBase (y m : Int) : Int :=
  let y2 := if m ≤ 2 then y - 1 else y
  let era := (if 0 ≤ y2 then y2 else y2 - 399) / 400
  let yoe := y2 - era * 400
  let mp := (m + 9) % 12
  let doy0 := (153 * mp + 2) / 5 - 1
  let doe0 := yoe * 365 + yoe / 4 - yoe / 100 + doy0
  era * 146097 + doe0 - 719468

/-- Days since 1970-01-01 of the civil date `y-m-d`. -/
def daysFromCivil (y m d : Int) : Int := civilBase y m + d

/-- Civil date of a day number since 1970-01-01. -/
def civilFromDays (z : Int) : Int × Int × Int :=
  let z2 := z + 719468
  let era := (if 0 ≤ z2 then z2 else z2 - 146096) / 146097
  let doe := z2 - era * 146097
  let yoe := (doe - doe / 1460 + doe / 36524 - doe / 146096) / 365
  let y := yoe + era * 400
  let doy := doe - (365 * yoe + yoe / 4 - yoe / 100)
  let mp := (5 * doy + 2) / 153
  let d := doy - (153 * mp + 2) / 5 + 1
  let m := if mp < 10 then mp + 3 else mp - 9
  (if m ≤ 2 then y + 1 else y, m, d)

def pad2 (n : Int) : String :=
  if n < 10 then ("0") ++ intToStr n else intToStr n

def pad4 (n : Int) : String :=
  if n < 10 then ("000") ++ intToStr n
  else if n < 100 then ("00") ++ intToStr n
  else if n < 1000 then ("0") ++ intToStr n
  else intToStr n

/-- The `YYYY-MM-DD` rendering of a day number:
`date.toISOString().split('T')[0]`. -/
def formatDays (z : Int) : String :=
  let c := civilFromDays z
  pad4 c.1 ++ ("-") ++ pad2 c.2.1 ++ ("-") ++ pad2 c.2.2

def isLeapYear (y : Int) : Bool :=
  (y % 4 == 0 && y % 100 != 0) || y % 400 == 0

def daysInMonth (y m : Int) : Int :=
  if m = 2 then (if isLeapYear y then 29 else 28)
  else if m = 4 ∨ m = 6 ∨ m = 9 ∨ m = 11 then 30
  else 31

/-- ISO `YYYY-MM-DD` parsing with component range validation, the behavior
of `new Date(s)` on date-only strings (an out-of-range component gives an
Invalid Date). -/
def parseDate (s : String) : Option (Int × Int × Int) :=
  match splitChar '-' s with
  | [ys, ms, ds] =>
      match digitsToNat? ys, digitsToNat? ms, digitsToNat? ds with
      | some y, some m, some d =>
          if ys.length = 4 ∧ ms.length = 2 ∧ ds.length = 2 ∧
             1 ≤ m ∧ m ≤ 12 ∧ 1 ≤ d ∧ (d : Int) ≤ daysInMonth (y : Int) (m : Int) then
            some ((y : Int), (m : Int), (d : Int))
          else none
      | _, _, _ => none
  | _ => none

/-! ## Filter translation, `buildFilterParams` in `src/api/alexisApi.ts` -/

/-- A value of a filters object: the registered tools supply strings and
booleans. -/
inductive FilterVal where
  | str (s : String)
  | boolVal (b : Bool)
deriving DecidableEq

/-- JS `new Date(value)` reduced to a calendar triple: ISO parsing for
strings (`none` is an Invalid Date); a boolean coerces to 0 or 1
milliseconds after the epoch, i.e. day 1970-01-01. -/
def jsNewDate : FilterVal → Option (Int × Int × Int)
  | FilterVal.str s => parseDate s
  | FilterVal.boolVal _ => some (1970, 1, 1)

/-- JS `date.setDate(n)`: sets the day-of-month to `n` with calendar
normalization, i.e. moves to the first of the month plus `n - 1` days. -/
def jsSetDate (y m n : Int) : Int := daysFromCivil y m 1 + (n - 1)

/-- Outcome of `buildFilterParams`: the parameter list, or the RangeError
`toISOString()` raises on an Invalid Date. -/
inductive FilterBuild where
  | raised
  | params (l : List (String × FilterVal))
deriving DecidableEq

/-- The `Object.entries(filters).forEach` body of `buildFilterParams`:
`startDate` becomes a `$gte` bound one week earlier, `endDate` a `$lte`
bound one week later (both via `setDate` and `toISOString`), every other
key an `$eq` with the value unchanged. `toISOString()` on an Invalid Date
raises a RangeError (`FilterBuild.raised`), aborting the whole
translation. -/
def buildFilterEntries : List (String × FilterVal) → FilterBuild
  | [] => FilterBuild.params []
  | (key, value) :: rest =>
      if key = "startDate" then
        match jsNewDate value with
        | none => FilterBuild.raised
        | some (y, m, d) =>
            match buildFilterEntries rest with
            | FilterBuild.raised => FilterBuild.raised
            | FilterBuild.params ps =>
                FilterBuild.params ((("filters[") ++ key ++ ("][$gte]"),
                  FilterVal.str (formatDays (jsSetDate y m (d - 7)))) :: ps)
      else if key = "endDate" then
        match jsNewDate value with
        | none => FilterBuild.raised
        | some (y, m, d) =>
            match buildFilterEntries rest with
            | FilterBuild.raised => FilterBuild.raised
            | FilterBuild.params ps =>
                FilterBuild.params ((("filters[") ++ key ++ ("][$lte]"),
                  FilterVal.str (formatDays (jsSetDate y m (d + 7)))) :: ps)
      else
        match buildFilterEntries rest with
        | FilterBuild.raised => FilterBuild.raised
        | FilterBuild.params ps =>
            FilterBuild.params ((("filters[") ++ key ++ ("][$eq]"), value) :: ps)

/-- `buildFilterParams(filters)`: `undefined` filters give an empty
parameter object. -/
def buildFilterParams (filters : Option (List (String × FilterVal))) :
    FilterBuild :=
  match filters with
  | none => FilterBuild.params []
  | some fs => buildFilterEntries fs

/-- Specification-side date shift: the calendar date `delta` days away
from `y-m-d`, computed by plain epoch-day arithmetic and rendered
`YYYY-MM-DD`. -/
def shiftedDateStr (y m d delta : Int) : String :=
  formatDays (daysFromCivil y m d + delta)

/-- Specification-side description of one translated filter entry, as
claim C9 words it: `startDate` maps to a `$gte` parameter seven days
earlier, `endDate` to a `$lte` parameter seven days later, any other key
to an `$eq` parameter with the value unchanged. -/
def specFilterEntry : String × FilterVal → String × FilterVal
  | (key, value) =>
      if key = "startDate" then
        (("filters[") ++ key ++ ("][$gte]"),
          match jsNewDate value with
          | some (y, m, d) => FilterVal.str (shiftedDateStr y m d (-7))
          | none => value)
      else if key = "endDate" then
        (("filters[") ++ key ++ ("][$lte]"),
          match jsNewDate value with
          | some (y, m, d) => FilterVal.str (shiftedDateStr y m d 7)
          | none => value)
      else
        (("filters[") ++ key ++ ("][$eq]"), value)

/-! ## Registered tool handlers, `src/tools/*`

Each handler wraps its whole body in try/catch; the catch returns a
transport-successful response whose single text item serializes the
uniform shape with `error: true` and a `message` string. Upstream HTTP
calls through `AlexisApiClient` are modelled by oracle functions taking
the constructor token, returning `Except.error msg` when the call (or
anything else in the try block) throws with that message. -/

structure EmployeeFilters where
  active : Option Bool := none
  title : Option String := none
  division : Option String := none
  organization : Option String := none
  employeeNumber : Option String := none
  firstName : Option String := none
  lastName : Option String := none
  nationality : Option String := none
  departmentId : Option String := none
  officeId : Option String := none
deriving DecidableEq

structure LeaveFilters where
  employeeId : Option String := none
  typeId : Option String := none
  status : Option String := none
  startDate : Option String := none
  endDate : Option String := none
  duration : Option String := none
  gradePercentage : Option String := none
deriving DecidableEq

structure Leave where
  startDate : String
  endDate : String
deriving DecidableEq

structure LeaveMetadata where
  count : Nat
  appliedFilters : Option LeaveFilters := none
deriving DecidableEq

structure LeaveResult where
  leaves : List Leave
  metadata : LeaveMetadata
deriving DecidableEq

structure OfficeFilters where
  name : Option String := none
  city : Option String := none
  country : Option String := none
deriving DecidableEq

structure OfficeQuery where
  limit : Nat
  offset : Nat
  select : String
  sort : Option String := none
  filters : Option OfficeFilters := none
deriving DecidableEq

/-- One item of a tool response's `content` array (always `type: 'text'`
in the source); the text is the JSON serialization of either the uniform
error object or the fetched data. -/
inductive ToolText where
  | errJson (message : String)
  | okJson (data : String)
  | okLeaves (r : LeaveResult)
deriving DecidableEq

/-- The value a handler returns to the transport: a successful response
carrying a content list. There is no failure constructor because the
handlers are total: every failure is caught and rendered as content. -/
structure ToolResponse where
  content : List ToolText
deriving DecidableEq

/-- The catch-block response: `JSON.stringify` of the uniform shape with
`error: true` and the given message. -/
def toolError (message : String) : ToolResponse :=
  ⟨[ToolText.errJson message]⟩

/-- JS `error.message || fallback`. -/
def jsOrDefault (msg fallback : String) : String :=
  if msg = "" then fallback else msg

/-- An instrumented handler execution: the response, whether the upstream
HR API was called, and the token handed to the `AlexisApiClient`
constructor (`none` when no client was constructed). -/
structure HandlerRun where
  response : ToolResponse
  upstreamCalled : Bool
  clientToken : Option String
deriving DecidableEq

/-- The run produced when `context.requestInfo.headers.authorization` is
falsy: `throw new Error('Authentication required')`, caught by the same
handler's catch block, before any client is constructed. -/
def authRequiredRun : HandlerRun :=
  ⟨toolError ("Authentication required"), false, none⟩

/-- The `getAllEmployees` handler of `src/tools/employeeTools.ts`. -/
def getAllEmployeesTool (auth : Option String) (limit : Nat)
    (filters : Option EmployeeFilters)
    (upstream : String → Nat → Option EmployeeFilters → Except String String) :
    HandlerRun :=
  if jsFalsy auth then authRequiredRun
  else
    let jwtToken := auth.getD ""
    match upstream jwtToken limit filters with
    | Except.error e =>
        ⟨toolError (jsOrDefault e ("Failed to fetch employees")), true, some jwtToken⟩
    | Except.ok result => ⟨⟨[ToolText.okJson result]⟩, true, some jwtToken⟩

/-- JS `Date` value of a leave date string at day granularity; `none`
models an Invalid Date (NaN timestamp). -/
def jsDateVal (s : String) : Option Int :=
  (parseDate s).map (fun c => daysFromCivil c.1 c.2.1 c.2.2)

/-- JS `a >= b` on Date values: false when either side is Invalid. -/
def jsGe (a b : Option Int) : Bool :=
  match a, b with
  | some x, some y => y ≤ x
  | _, _ => false

/-- JS `a <= b` on Date values: false when either side is Invalid. -/
def jsLe (a b : Option Int) : Bool :=
  match a, b with
  | some x, some y => x ≤ y
  | _, _ => false

/-- The filter callback of `getAllLeaves` (local date filtering). -/
def keepLeave (startDateFilter endDateFilter : Option String) (lv : Leave) : Bool :=
  let leaveStart := jsDateVal lv.startDate
  let leaveEnd := jsDateVal lv.endDate
  if !jsFalsy startDateFilter && jsFalsy endDateFilter then
    jsGe leaveStart (jsDateVal (startDateFilter.getD "")) ||
    jsGe leaveEnd (jsDateVal (startDateFilter.getD ""))
  else if !jsFalsy endDateFilter && jsFalsy startDateFilter then
    jsLe leaveStart (jsDateVal (endDateFilter.getD "")) ||
    jsLe leaveEnd (jsDateVal (endDateFilter.getD ""))
  else if !jsFalsy startDateFilter && !jsFalsy endDateFilter then
    (jsGe leaveStart (jsDateVal (startDateFilter.getD "")) ||
     jsGe leaveEnd (jsDateVal (startDateFilter.getD ""))) &&
    (jsLe leaveStart (jsDateVal (endDateFilter.getD "")) ||
     jsLe leaveEnd (jsDateVal (endDateFilter.getD "")))
  else true

/-- `delete apiFilters.startDate; delete apiFilters.endDate`. -/
def stripDates (f : LeaveFilters) : LeaveFilters :=
  { f with startDate := none, endDate := none }

/-- The `getAllLeaves` handler of `src/tools/leaveTools.ts`. Note the JS
spread `...filters` of a possibly-undefined filters object always yields
an object, so the upstream call always receives one. -/
def getAllLeavesTool (auth : Option String) (limit : Nat)
    (filters : Option LeaveFilters)
    (upstream : String → Nat → Option LeaveFilters → Except String LeaveResult) :
    HandlerRun :=
  if jsFalsy auth then authRequiredRun
  else
    let jwtToken := auth.getD ""
    let startDateFilter := filters.bind LeaveFilters.startDate
    let endDateFilter := filters.bind LeaveFilters.endDate
    let apiFilters := stripDates (filters.getD {})
    match upstream jwtToken limit (some apiFilters) with
    | Except.error e =>
        ⟨toolError (jsOrDefault e ("Failed to fetch leaves")), true, some jwtToken⟩
    | Except.ok result =>
        if !jsFalsy startDateFilter || !jsFalsy endDateFilter then
          let kept := result.leaves.filter (keepLeave startDateFilter endDateFilter)
          let result2 : LeaveResult :=
            { leaves := kept,
              metadata := { count := kept.length,
                            appliedFilters := some (filters.getD {}) } }
          ⟨⟨[ToolText.okLeaves result2]⟩, true, some jwtToken⟩
        else ⟨⟨[ToolText.okLeaves result]⟩, true, some jwtToken⟩

/-- The `getAllOffices` handler of `src/tools/officeTools.ts`. -/
def getAllOfficesTool (auth : Option String) (q : OfficeQuery)
    (upstream : String → OfficeQuery → Except String String) : HandlerRun :=
  if jsFalsy auth then authRequiredRun
  else
    let jwtToken := auth.getD ""
    match upstream jwtToken q with
    | Except.error e =>
        ⟨toolError (jsOrDefault e ("Failed to fetch offices")), true, some jwtToken⟩
    | Except.ok result => ⟨⟨[ToolText.okJson result]⟩, true, some jwtToken⟩

/-- The upstream HR API reachable through `AlexisApiClient`, one oracle
per modelled tool; each takes the constructor token first. -/
structure UpstreamOracles where
  employees : String → Nat → Option EmployeeFilters → Except String String
  leaves : String → Nat → Option LeaveFilters → Except String LeaveResult
  offices : String → OfficeQuery → Except String String

/-- A tool call's input after JSON parsing: either arguments matching one
of the modelled tools' schemas, or anything else (`badInput`). -/
inductive ToolCallArgs where
  | employeesArgs (limit : Nat) (filters : Option EmployeeFilters)
  | leavesArgs (limit : Nat) (filters : Option LeaveFilters)
  | officesArgs (q : OfficeQuery)
  | badInput
deriving DecidableEq

/-- Modelled from the spec: the tool-invocation dispatcher (the MCP SDK
layer, not part of this repository's sources). Per spec section 4.5 it
looks the tool up by name (an unknown name yields a ToolError mentioning
the tool), validates the input against the tool's schema (a mismatch
yields a ToolError without invoking the handler), and otherwise invokes
the registered handler; it always returns a transport-successful
response, never a raw exception. -/
def dispatchTool (name : String) (args : ToolCallArgs) (auth : Option String)
    (o : UpstreamOracles) : ToolResponse :=
  if name = "getAllEmployees" then
    match args with
    | ToolCallArgs.employeesArgs limit filters =>
        (getAllEmployeesTool auth limit filters o.employees).response
    | _ => toolError (("Invalid input for tool ") ++ name)
  else if name = "getAllLeaves" then
    match args with
    | ToolCallArgs.leavesArgs limit filters =>
        (getAllLeavesTool auth limit filters o.leaves).response
    | _ => toolError (("Invalid input for tool ") ++ name)
  else if name = "getAllOffices" then
    match args with
    | ToolCallArgs.officesArgs q => (getAllOfficesTool auth q o.offices).response
    | _ => toolError (("Invalid input for tool ") ++ name)
  else toolError (("Tool ") ++ name ++ (" not found"))

/-- Whether `name` is one of the modelled registered tools. -/
def knownToolName (name : String) : Bool :=
  name == "getAllEmployees" || name == "getAllLeaves" || name == "getAllOffices"

/-- Whether the parsed input matches the named tool's schema. -/
def argsMatchTool (name : String) (args : ToolCallArgs) : Bool :=
  match args with
  | ToolCallArgs.employeesArgs _ _ => name == "getAllEmployees"
  | ToolCallArgs.leavesArgs _ _ => name == "getAllLeaves"
  | ToolCallArgs.officesArgs _ => name == "getAllOffices"
  | ToolCallArgs.badInput => false

/-- The upstream call the named handler would make fails (the
handler/upstream exception case of a handler failure). -/
def upstreamFails (args : ToolCallArgs) (auth : Option String)
    (o : UpstreamOracles) : Prop :=
  match args with
  | ToolCallArgs.employeesArgs limit filters =>
      ∃ e, o.employees (auth.getD "") limit filters = Except.error e
  | ToolCallArgs.leavesArgs limit filters =>
      ∃ e, o.leaves (auth.getD "") limit (some (stripDates (filters.getD {}))) =
        Except.error e
  | ToolCallArgs.officesArgs q => ∃ e, o.offices (auth.getD "") q = Except.error e
  | ToolCallArgs.badInput => False

/-- The uniform tool-error shape: a successful response whose single text
item serializes an object with `error: true` and a `message` string. -/
def isUniformToolError (r : ToolResponse) : Prop :=
  ∃ m, r = toolError m

/-- Modelled from the SDK contract: a handler registered with
`server.registerTool` is invoked with the schema-parsed arguments and an
extra object whose `requestInfo` carries the inbound HTTP request headers
(including `authorization`). The dispatched envelope's other `params`
fields — in particular the `context` object the gateway injected — are
not among what the handler receives, which this wrapper makes explicit. -/
def invokeEmployeesHandler (_dispatchedEnv : Envelope) (requestAuth : Option String)
    (limit : Nat) (filters : Option EmployeeFilters)
    (upstream : String → Nat → Option EmployeeFilters → Except String String) :
    HandlerRun :=
  getAllEmployeesTool requestAuth limit filters upstream

/-- Modelled from the SDK contract, as with `invokeEmployeesHandler`. -/
def invokeOfficesHandler (_dispatchedEnv : Envelope) (requestAuth : Option String)
    (q : OfficeQuery) (upstream : String → OfficeQuery → Except String String) :
    HandlerRun :=
  getAllOfficesTool requestAuth q upstream

/-! ## Demographic aggregation, `src/utils/countUtils.ts` -/

/-- A JS value that may sit in the `age` field: a string or a number. -/
inductive JsVal where
  | str (s : String)
  | num (n : Int)
deriving DecidableEq

def leadDigitsVal : List Char → Nat → Nat
  | [], acc => acc
  | c :: rest, acc =>
      if c.isDigit then leadDigitsVal rest (acc * 10 + (c.toNat - 48)) else acc

def leadNat : List Char → Option Nat
  | [] => none
  | c :: rest =>
      if c.isDigit then some (leadDigitsVal rest (c.toNat - 48)) else none

/-- JS `parseInt(s, 10)`: trims, reads an optional sign and the leading
digits, NaN (`none`) when no digit is found. -/
def jsParseInt (s : String) : Option Int :=
  match trimChars s.toList with
  | '-' :: rest => (leadNat rest).map (fun n => -(n : Int))
  | '+' :: rest => (leadNat rest).map (fun n => (n : Int))
  | cs => (leadNat cs).map (fun n => (n : Int))

/-- `parseInt(employee.age as string, 10)`: a number coerces to its
decimal rendering first, so it parses back to itself. -/
def parseIntJs : JsVal → Option Int
  | JsVal.num n => some n
  | JsVal.str s => jsParseInt s

/-- JS truthiness of the optional `age` field: `undefined`, `0` and the
empty string are falsy. -/
def jsTruthyVal : Option JsVal → Bool
  | none => false
  | some (JsVal.num n) => n != 0
  | some (JsVal.str s) => s != ""

/-- The employee fields `calculateDemographicCounts` reads. -/
structure Employee where
  nationality : Option String := none
  gender : Option String := none
  age : Option JsVal := none
  birthDate : Option String := none
deriving DecidableEq

/-- The six age buckets of the source, `unknown` included. -/
inductive AgeGroup where
  | g18to29
  | g30to39
  | g40to49
  | g50to59
  | g60to99
  | gUnknown
deriving DecidableEq

/-- The cascade of range tests assigning an age to a bucket. -/
def bucketOf (age : Int) : AgeGroup :=
  if 18 ≤ age ∧ age ≤ 29 then AgeGroup.g18to29
  else if 30 ≤ age ∧ age ≤ 39 then AgeGroup.g30to39
  else if 40 ≤ age ∧ age ≤ 49 then AgeGroup.g40to49
  else if 50 ≤ age ∧ age ≤ 59 then AgeGroup.g50to59
  else if 60 ≤ age ∧ age ≤ 99 then AgeGroup.g60to99
  else AgeGroup.gUnknown

/-- The age-group selection for one employee: a truthy `age` field is
parsed as an integer (NaN keeps `unknown`); otherwise a truthy
`birthDate` is parsed as a date and the age computed against `today`
(year difference, minus one before the birthday); otherwise `unknown`.
The source reads `today` from the clock; it is a parameter here. -/
def ageGroupOf (today : Int × Int × Int) (e : Employee) : AgeGroup :=
  if jsTruthyVal e.age then
    match parseIntJs (e.age.getD (JsVal.num 0)) with
    | none => AgeGroup.gUnknown
    | some a => bucketOf a
  else if !jsFalsy e.birthDate then
    match parseDate (e.birthDate.getD "") with
    | none => AgeGroup.gUnknown
    | some (y, m, d) =>
        bucketOf (today.1 - y -
          (if today.2.1 < m ∨ (today.2.1 = m ∧ today.2.2 < d) then 1 else 0))
  else AgeGroup.gUnknown

/-- The age-group record of the source, all buckets starting at 0. -/
structure AgeGroups where
  a18to29 : Nat := 0
  a30to39 : Nat := 0
  a40to49 : Nat := 0
  a50to59 : Nat := 0
  a60to99 : Nat := 0
  aUnknown : Nat := 0
deriving DecidableEq

/-- `ageGroups[ageGroup]++`. -/
def bumpAge (g : AgeGroups) : AgeGroup → AgeGroups
  | AgeGroup.g18to29 => { g with a18to29 := g.a18to29 + 1 }
  | AgeGroup.g30to39 => { g with a30to39 := g.a30to39 + 1 }
  | AgeGroup.g40to49 => { g with a40to49 := g.a40to49 + 1 }
  | AgeGroup.g50to59 => { g with a50to59 := g.a50to59 + 1 }
  | AgeGroup.g60to99 => { g with a60to99 := g.a60to99 + 1 }
  | AgeGroup.gUnknown => { g with aUnknown := g.aUnknown + 1 }

/-- `employee.nationality || 'unknown'` (and the same for gender). -/
def orUnknown (o : Option String) : String :=
  if jsFalsy o then ("unknown") else o.getD ""

/-- `if (!counts[k]) counts[k] = 0; counts[k]++` on a keyed count object. -/
def bumpCount : AList Nat → String → AList Nat
  | [], k => [(k, 1)]
  | (k0, n) :: rest, k =>
      if k0 = k then (k0, n + 1) :: rest else (k0, n) :: bumpCount rest k

/-- The result record of `calculateDemographicCounts`. -/
structure DemographicCounts where
  nationality : AList Nat
  gender : AList Nat
  ageGroups : AgeGroups
deriving DecidableEq

/-- The `employees.forEach` body: bump one nationality count, one gender
count and one age bucket. -/
def demoStep (today : Int × Int × Int) (acc : DemographicCounts) (e : Employee) :
    DemographicCounts :=
  { nationality := bumpCount acc.nationality (orUnknown e.nationality),
    gender := bumpCount acc.gender (orUnknown e.gender),
    ageGroups := bumpAge acc.ageGroups (ageGroupOf today e) }

/-- `calculateDemographicCounts` of `src/utils/countUtils.ts`. -/
def calculateDemographicCounts (today : Int × Int × Int)
    (employees : List Employee) : DemographicCounts :=
  employees.foldl (demoStep today)
    { nationality := [], gender := [], ageGroups := {} }

/-- Total of a keyed count object. -/
def sumCounts : AList Nat → Nat
  | [] => 0
  | (_, n) :: rest => n + sumCounts rest

/-- Total of the six age buckets, `unknown` included. -/
def sumAgeGroups (g : AgeGroups) : Nat :=
  g.a18to29 + g.a30to39 + g.a40to49 + g.a50to59 + g.a60to99 + g.aUnknown

/-! ## Concrete fixtures used by witnesses and counterexamples -/

/-- A state with one live SSE session `s1` whose remembered credential is
`tok0`. -/
def sampleSseState : ServerState :=
  { streamable := [], sse := [(("s1"), ⟨0⟩)],
    sessionTokens := [(("s1"), ("tok0"))], nextTid := 1 }

/-- An initialization envelope carrying a client-supplied context value. -/
def sampleInitBody : Envelope :=
  { jsonrpc := some ("2.0"), method := some ("initialize"), reqId := none,
    params := some { capability := some ("tools"),
                     context := some (CtxVal.clientCtx ("spoof")) } }

/-- The envelope actually dispatched for `sampleInitBody` under the header
`Bearer abc`: the client context is overwritten by the injected one. -/
def sampleDispatchedEnv : Envelope :=
  { jsonrpc := some ("2.0"), method := some ("initialize"), reqId := none,
    params := some { capability := some ("tools"),
                     context := some (CtxVal.jwtCtx (some ("abc"))) } }

/-- The state after dispatching `sampleInitBody` from `initialState`. -/
def sampleDispatchedState : ServerState :=
  { streamable := [(("sid-1"), ⟨0⟩)], sse := [], sessionTokens := [], nextTid := 1 }

/-- An envelope whose method designator is the reserved initialization
value but whose params lack the `capability: 'tools'` marker. -/
def sampleInitNoCapability : Envelope :=
  { jsonrpc := some ("2.0"), method := some ("initialize"), reqId := none,
    params := some {} }

/-- A filters object with both date keys (crossing month and year
boundaries under the one-week shifts) and one generic key. -/
def sampleFilters : List (String × FilterVal) :=
  [(("startDate"), FilterVal.str ("2024-03-03")),
   (("endDate"), FilterVal.str ("2024-12-28")),
   (("active"), FilterVal.boolVal true)]

/-- An upstream whose every call fails with the message `boom`. -/
def sampleOracles : UpstreamOracles :=
  { employees := fun _ _ _ => Except.error ("boom"),
    leaves := fun _ _ _ => Except.error ("boom"),
    offices := fun _ _ => Except.error ("boom") }

/-- A concrete office query with the schema defaults. -/
def sampleOfficeQuery : OfficeQuery :=
  { limit := 500, offset := 0,
    select := ("id,name,location,address,city,country,postalCode"),
    sort := none, filters := none }

/-! # Theorems -/

/-! ## Registry operation lemmas -/

theorem alookup_aset_self {V : Type} (l : AList V) (k : String) (v : V) :
    alookup (aset l k v) k = some v := by
  induction l with
  | nil => simp [aset, alookup]
  | cons p rest ih =>
      obtain ⟨k0, w⟩ := p
      by_cases h : k0 = k
      · simp [aset, h, alookup]
      · simp [aset, h, alookup, ih]

theorem aerase_aerase {V : Type} (l : AList V) (k : String) :
    aerase (aerase l k) k = aerase l k := by
  induction l with
  | nil => simp [aerase]
  | cons p rest ih =>
      obtain ⟨k0, w⟩ := p
      by_cases h : k0 = k
      · simp [aerase, h, ih]
      · simp [aerase, h, ih]

theorem aerase_of_alookup_none {V : Type} (l : AList V) (k : String)
    (h : alookup l k = none) : aerase l k = l := by
  induction l with
  | nil => simp [aerase]
  | cons p rest ih =>
      obtain ⟨k0, w⟩ := p
      by_cases hk : k0 = k
      · simp [alookup, hk] at h
      · simp [alookup, hk] at h
        simp [aerase, hk, ih h]

/-! ## Injection lemmas -/

theorem envContextOf_injectJwt (body : Envelope) (token : Option String) :
    envContextOf (injectJwt body token) = some (CtxVal.jwtCtx token) := by
  cases hp : body.params <;> simp [envContextOf, injectJwt, hp]

theorem envContextOf_injectTok (body : Envelope) (token : String) :
    envContextOf (injectTok body token) = some (CtxVal.tokCtx token) := by
  cases hp : body.params <;> simp [envContextOf, injectTok, hp]

/-! ## Claim C1 -/

/-- Claim C1, counterexample: the push-stream session `s1` is live and its
remembered credential is `tok0`, yet a command submitted for it with no
`Authorization` header is not dispatched with the remembered credential as
the claim states: the authentication middleware mounted on `/messages`
rejects it with a 401 protocol error before the handler's fallback can
run, and the state is unchanged. -/
theorem c1_counterexample :
    alookup sampleSseState.sse ("s1") = some ⟨0⟩ ∧
    alookup sampleSseState.sessionTokens ("s1") = some ("tok0") ∧
    pipelineMessages sampleSseState (some ("s1")) none {} =
      (sampleSseState, Gate.rejected authMissingErr) := by
  decide

/-- Claim C1 (amended): for every command submitted to the push-stream
command endpoint for a live session: a command whose `Authorization`
header is missing or not Bearer-formed is rejected by the middleware with
an authentication error and nothing is dispatched; otherwise, when the
token extracted from the header is nonempty it is the credential used for
dispatch and the remembered credential for the session is updated to it
(so a later command that omits a usable header token observes the new
value); when the extracted token is empty the remembered credential is
used and the state is unchanged; and when additionally no credential is
remembered the command is rejected with a 401 authentication error
without dispatching. -/
theorem c1_messages_credential_resolution (st : ServerState) (sid : String)
    (t : Transport) (authorization : Option String) (body : Envelope)
    (hsid : sid ≠ "") (hlive : alookup st.sse sid = some t) :
    (validateJwtToken authorization = some authMissingErr →
      pipelineMessages st (some sid) authorization body =
        (st, Gate.rejected authMissingErr)) ∧
    (∀ tk, validateJwtToken authorization = none →
      headerToken authorization = some tk → tk ≠ "" →
      ∃ st2,
        pipelineMessages st (some sid) authorization body =
          (st2, Gate.handled (MsgResult.dispatched sid t (injectTok body tk) tk)) ∧
        alookup st2.sessionTokens sid = some tk ∧
        st2.sse = st.sse ∧ st2.streamable = st.streamable) ∧
    (∀ tk, validateJwtToken authorization = none →
      jsFalsy (headerToken authorization) = true →
      alookup st.sessionTokens sid = some tk → tk ≠ "" →
      pipelineMessages st (some sid) authorization body =
        (st, Gate.handled (MsgResult.dispatched sid t (injectTok body tk) tk))) ∧
    (validateJwtToken authorization = none →
      jsFalsy (headerToken authorization) = true →
      jsFalsy (alookup st.sessionTokens sid) = true →
      pipelineMessages st (some sid) authorization body =
        (st, Gate.handled (MsgResult.clientError 401
          ("Unauthorized: No valid token found")))) := by
  have hq : jsFalsy (some sid) = false := by simp [jsFalsy, hsid]
  have hidx : jsIndex st.sse sid = JsLookup.ownProp t := by simp [jsIndex, hlive]
  refine ⟨?_, ?_, ?_, ?_⟩
  · intro hmw
    simp [pipelineMessages, hmw]
  · intro tk hmw htk hne
    have hft : jsFalsy (some tk) = false := by simp [jsFalsy, hne]
    refine ⟨{ st with sessionTokens := aset st.sessionTokens sid tk }, ?_,
      alookup_aset_self _ _ _, rfl, rfl⟩
    simp [pipelineMessages, hmw, handleMessages, hq, hidx, htk, hft]
  · intro tk hmw hfh hst hne
    have hft : jsFalsy (some tk) = false := by simp [jsFalsy, hne]
    simp [pipelineMessages, hmw, handleMessages, hq, hidx, hfh, hst, hft]
  · intro hmw hfh hst
    simp [pipelineMessages, hmw, handleMessages, hq, hidx, hfh, hst]

/-- Claim C1 witness: on the live session `s1` remembering `tok0`, a
command whose header is `Bearer` followed by a space (so the middleware
passes but the extracted token is empty) is dispatched with the
remembered credential `tok0` and the state is unchanged. -/
theorem c1_messages_credential_resolution_witness :
    pipelineMessages sampleSseState (some ("s1")) (some ("Bearer ")) {} =
      (sampleSseState, Gate.handled (MsgResult.dispatched ("s1") ⟨0⟩
        (injectTok {} ("tok0")) ("tok0"))) :=
  (c1_messages_credential_resolution sampleSseState ("s1") ⟨0⟩ (some ("Bearer ")) {}
      (by decide) (by decide)).2.2.1 ("tok0") (by decide) (by decide) (by decide)
      (by decide)

/-! ## Claim C2 -/

/-- Claim C2: whenever the streamable endpoint dispatches an envelope, the
context in the dispatched envelope's parameters is exactly the object
wrapping the credential extracted from the current request's
`Authorization` header; in particular it does not depend on any
client-supplied context field, which the injection overwrote. -/
theorem c2_context_injection (st : ServerState)
    (authorization mcpSessionId : Option String) (body : Envelope)
    (freshId : String) (st2 : ServerState) (rsid : String) (t : Transport)
    (env : Envelope)
    (hdisp : pipelineMcp st authorization mcpSessionId body freshId =
      (st2, Gate.handled (McpResult.dispatched rsid t env))) :
    envContextOf env = some (CtxVal.jwtCtx (headerToken authorization)) := by
  unfold pipelineMcp at hdisp
  split at hdisp
  · exact absurd hdisp (by simp)
  · simp only [handleMcpPost] at hdisp
    split at hdisp
    · simp only [Prod.mk.injEq, Gate.handled.injEq, McpResult.dispatched.injEq]
        at hdisp
      obtain ⟨h1, h2, h3, henv⟩ := hdisp
      rw [← henv, envContextOf_injectJwt]
    · exact absurd hdisp (by simp)
    · split at hdisp
      · simp only [Prod.mk.injEq, Gate.handled.injEq, McpResult.dispatched.injEq]
          at hdisp
        obtain ⟨h1, h2, h3, henv⟩ := hdisp
        rw [← henv, envContextOf_injectJwt]
      · exact absurd hdisp (by simp)

/-- Claim C2 witness: initializing from the empty state under the header
`Bearer abc`, with a body that carried a client-supplied (spoofed)
context, dispatches an envelope whose context is the injected `abc`
credential. -/
theorem c2_context_injection_witness :
    envContextOf sampleDispatchedEnv =
      some (CtxVal.jwtCtx (headerToken (some ("Bearer abc")))) :=
  c2_context_injection initialState (some ("Bearer abc")) none sampleInitBody
    ("sid-1") sampleDispatchedState ("sid-1") ⟨0⟩ sampleDispatchedEnv (by decide)

/-! ## Claim C3 -/

/-- Claim C3, counterexample: the session id `constructor` is absent from
the (empty) streaming-request registry, yet the authenticated envelope
supplying it is not answered with a 400-class client error: the inherited
`Object.prototype.constructor` makes the bracket lookup truthy, the reuse
branch runs with a non-transport value, `transport.handleRequest` throws,
and the catch answers with the 500 Internal Server Error. -/
theorem c3_counterexample :
    alookup initialState.streamable ("constructor") = none ∧
    pipelineMcp initialState (some ("Bearer abc")) (some ("constructor")) {}
        ("f1") =
      (initialState, Gate.handled (McpResult.serverError 500 (-32000)
        ("Internal Server Error"))) := by
  decide

/-- Claim C3 (amended): for every authenticated streamable envelope: if it
supplies a session id absent from the streaming-request registry that
does not name an inherited `Object.prototype` property, or omits the
session id while failing the initialization test, it is answered with the
HTTP 400 JSON-RPC client error and the whole server state — both
transport registries and the token map — is unchanged, so no session is
created or destroyed; if the supplied absent id does name an inherited
`Object.prototype` property (`constructor`, `toString`, `__proto__`,
...), the dispatch crashes and the response is the 500 Internal Server
Error, still with the state unchanged. -/
theorem c3_invalid_session_rejected (st : ServerState)
    (authorization mcpSessionId : Option String) (body : Envelope)
    (freshId : String)
    (hauth : validateJwtToken authorization = none) :
    ((∃ sid, mcpSessionId = some sid ∧ sid ≠ "" ∧
        alookup st.streamable sid = none ∧ protoKey sid = false) ∨
     (jsFalsy mcpSessionId = true ∧ isInitRequest body = false) →
      pipelineMcp st authorization mcpSessionId body freshId =
        (st, Gate.handled (McpResult.clientError 400 (-32000)
          ("Bad Request: No valid session ID provided")))) ∧
    (∀ sid, mcpSessionId = some sid → sid ≠ "" →
      alookup st.streamable sid = none → protoKey sid = true →
      pipelineMcp st authorization mcpSessionId body freshId =
        (st, Gate.handled (McpResult.serverError 500 (-32000)
          ("Internal Server Error")))) := by
  constructor
  · intro h
    rcases h with ⟨sid, hs, hne, hnone, hpk⟩ | ⟨hf, hni⟩
    · subst hs
      have hq : jsFalsy (some sid) = false := by simp [jsFalsy, hne]
      have hidx : jsIndex st.streamable sid = JsLookup.missing := by
        simp [jsIndex, hnone, hpk]
      simp [pipelineMcp, hauth, handleMcpPost, hq, hidx]
    · simp [pipelineMcp, hauth, handleMcpPost, hf, hni]
  · intro sid hs hne hnone hpk
    subst hs
    have hq : jsFalsy (some sid) = false := by simp [jsFalsy, hne]
    have hidx : jsIndex st.streamable sid = JsLookup.protoProp := by
      simp [jsIndex, hnone, hpk]
    simp [pipelineMcp, hauth, handleMcpPost, hq, hidx]

/-- Claim C3 witness: against the empty state, the unknown ordinary id
`nope` gets the 400 client error, while the unknown prototype-colliding
id `toString` gets the 500 crash; both leave the state unchanged. -/
theorem c3_invalid_session_rejected_witness :
    pipelineMcp initialState (some ("Bearer abc")) (some ("nope")) {} ("f1") =
      (initialState, Gate.handled (McpResult.clientError 400 (-32000)
        ("Bad Request: No valid session ID provided"))) ∧
    pipelineMcp initialState (some ("Bearer abc")) (some ("toString")) {} ("f1") =
      (initialState, Gate.handled (McpResult.serverError 500 (-32000)
        ("Internal Server Error"))) :=
  ⟨(c3_invalid_session_rejected initialState (some ("Bearer abc")) (some ("nope"))
        {} ("f1") (by decide)).1
      (Or.inl ⟨("nope"), rfl, by decide, by decide, by decide⟩),
   (c3_invalid_session_rejected initialState (some ("Bearer abc"))
        (some ("toString")) {} ("f1") (by decide)).2
      ("toString") rfl (by decide) (by decide) (by decide)⟩

/-! ## Claim C4 -/

/-- Claim C4, counterexample: an authenticated envelope with no session id
whose method designator is the reserved initialization value
(`initialize`) — but whose params lack `capability: 'tools'` — does not
create a session: the endpoint answers with the 400 client error and the
streaming-request registry stays empty, contradicting the claim that the
method designator alone triggers transport creation. -/
theorem c4_counterexample :
    sampleInitNoCapability.method = some ("initialize") ∧
    sampleInitNoCapability.jsonrpc = some ("2.0") ∧
    pipelineMcp initialState (some ("Bearer abc")) none sampleInitNoCapability
        ("f1") =
      (initialState, Gate.handled (McpResult.clientError 400 (-32000)
        ("Bad Request: No valid session ID provided"))) ∧
    initialState.streamable = [] := by
  decide

/-- Claim C4 (amended): for every streamable envelope with no session id
that passes the endpoint's full initialization test (`initialize` method,
JSON-RPC 2.0 tag and `capability: 'tools'` params), a new transport is
created, the freshly generated session id is registered in the
streaming-request registry and returned with the dispatch, and a
subsequent envelope presenting that session id is routed to the same
registered transport with the registry unchanged — no new session. -/
theorem c4_init_creates_session (st : ServerState)
    (authorization auth2 : Option String) (body body2 : Envelope)
    (freshId freshId2 : String)
    (hinit : isInitRequest body = true) (hfresh : freshId ≠ "") :
    ∃ t st2,
      handleMcpPost st authorization none body freshId =
        (st2, McpResult.dispatched freshId t
          (injectJwt body (headerToken authorization))) ∧
      alookup st2.streamable freshId = some t ∧
      handleMcpPost st2 auth2 (some freshId) body2 freshId2 =
        (st2, McpResult.dispatched freshId t
          (injectJwt body2 (headerToken auth2))) := by
  refine ⟨⟨st.nextTid⟩,
    { st with streamable := aset st.streamable freshId ⟨st.nextTid⟩,
              nextTid := st.nextTid + 1 }, ?_, alookup_aset_self _ _ _, ?_⟩
  · simp [handleMcpPost, jsFalsy, hinit]
  · have hq : jsFalsy (some freshId) = false := by simp [jsFalsy, hfresh]
    have hidx : jsIndex (aset st.streamable freshId ⟨st.nextTid⟩) freshId =
        JsLookup.ownProp ⟨st.nextTid⟩ := by
      simp [jsIndex, alookup_aset_self]
    simp [handleMcpPost, hq, hidx]

/-- Claim C4 witness: initializing from the empty state registers session
`sid-1` on transport 0, and a follow-up envelope carrying `sid-1` is
served by the same transport without touching the registry. -/
theorem c4_init_creates_session_witness :
    ∃ t st2,
      handleMcpPost initialState (some ("Bearer abc")) none sampleInitBody
          ("sid-1") =
        (st2, McpResult.dispatched ("sid-1") t
          (injectJwt sampleInitBody (headerToken (some ("Bearer abc"))))) ∧
      alookup st2.streamable ("sid-1") = some t ∧
      handleMcpPost st2 (some ("Bearer xyz")) (some ("sid-1")) {} ("sid-2") =
        (st2, McpResult.dispatched ("sid-1") t
          (injectJwt {} (headerToken (some ("Bearer xyz"))))) :=
  c4_init_creates_session initialState (some ("Bearer abc")) (some ("Bearer xyz"))
    sampleInitBody {} ("sid-1") ("sid-2") (by decide) (by decide)

/-! ## Claim C5 -/

/-- Claim C5: a request to any of the three authenticated paths whose
`Authorization` header is missing or not Bearer-formed is rejected by
the middleware with the HTTP 401 JSON-RPC-shaped authentication error
before any transport binding runs, and the state — hence every session
registry — is unchanged. -/
theorem c5_auth_gate (st : ServerState)
    (authorization mcpSessionId querySessionId : Option String)
    (body : Envelope) (freshId : String)
    (hbad : authorization = none ∨
      ∃ h, authorization = some h ∧ strStartsWith h ("Bearer ") = false) :
    authMissingErr.status = 401 ∧ authMissingErr.code = -32001 ∧
    pipelineMcp st authorization mcpSessionId body freshId =
      (st, Gate.rejected authMissingErr) ∧
    pipelineSse st authorization freshId = (st, Gate.rejected authMissingErr) ∧
    pipelineMessages st querySessionId authorization body =
      (st, Gate.rejected authMissingErr) := by
  have hmw : validateJwtToken authorization = some authMissingErr := by
    rcases hbad with h | ⟨hh, rfl, hsw⟩
    · subst h; rfl
    · simp [validateJwtToken, hsw]
  exact ⟨rfl, rfl, by simp [pipelineMcp, hmw], by simp [pipelineSse, hmw],
    by simp [pipelineMessages, hmw]⟩

/-- Claim C5 witness: a header using a non-Bearer scheme is rejected with
the 401 protocol error on all three paths and the empty state stays
empty. -/
theorem c5_auth_gate_witness :
    authMissingErr.status = 401 ∧ authMissingErr.code = -32001 ∧
    pipelineMcp initialState (some ("Token abc")) none {} ("f1") =
      (initialState, Gate.rejected authMissingErr) ∧
    pipelineSse initialState (some ("Token abc")) ("f1") =
      (initialState, Gate.rejected authMissingErr) ∧
    pipelineMessages initialState (some ("s1")) (some ("Token abc")) {} =
      (initialState, Gate.rejected authMissingErr) :=
  c5_auth_gate initialState (some ("Token abc")) none (some ("s1")) {} ("f1")
    (Or.inr ⟨("Token abc"), rfl, by decide⟩)

/-! ## Claim C7 -/

/-- Claim C7: session removal is idempotent for both transport kinds: a
second removal of the same id changes nothing, and removing an id absent
from the kind's registry leaves the whole state exactly unchanged; the
operation is a total function, so it never raises. -/
theorem c7_remove_idempotent (k : TransportKind) (st : ServerState) (sid : String) :
    removeSession k (removeSession k st sid) sid = removeSession k st sid ∧
    (alookup (registryOf k st) sid = none → removeSession k st sid = st) := by
  cases k with
  | streamableKind =>
      refine ⟨by simp [removeSession, aerase_aerase], ?_⟩
      intro h
      simp only [registryOf] at h
      simp [removeSession, aerase_of_alookup_none _ _ h]
  | sseKind =>
      refine ⟨by simp [removeSession, aerase_aerase], ?_⟩
      intro h
      simp only [registryOf] at h
      simp [removeSession, aerase_of_alookup_none _ _ h]

/-- Claim C7 witness: double removal of the live SSE session `s1` equals a
single removal, and removing the never-created id `zzz` from the
streamable registry leaves the state untouched. -/
theorem c7_remove_idempotent_witness :
    removeSession TransportKind.sseKind
        (removeSession TransportKind.sseKind sampleSseState ("s1")) ("s1") =
      removeSession TransportKind.sseKind sampleSseState ("s1") ∧
    removeSession TransportKind.streamableKind sampleSseState ("zzz") =
      sampleSseState :=
  ⟨(c7_remove_idempotent TransportKind.sseKind sampleSseState ("s1")).1,
   (c7_remove_idempotent TransportKind.streamableKind sampleSseState ("zzz")).2
     (by decide)⟩

/-! ## Claim C6 -/

theorem employeesRun_fail (auth : Option String) (limit : Nat)
    (filters : Option EmployeeFilters)
    (upstream : String → Nat → Option EmployeeFilters → Except String String)
    (h : jsFalsy auth = true ∨
      ∃ e, upstream (auth.getD "") limit filters = Except.error e) :
    ∃ m, (getAllEmployeesTool auth limit filters upstream).response = toolError m := by
  by_cases ha : jsFalsy auth = true
  · exact ⟨("Authentication required"), by simp [getAllEmployeesTool, ha, authRequiredRun]⟩
  · have ha2 : jsFalsy auth = false := by simpa using ha
    rcases h with h | ⟨e, he⟩
    · exact absurd h ha
    · exact ⟨jsOrDefault e ("Failed to fetch employees"),
        by simp [getAllEmployeesTool, ha2, he]⟩

theorem leavesRun_fail (auth : Option String) (limit : Nat)
    (filters : Option LeaveFilters)
    (upstream : String → Nat → Option LeaveFilters → Except String LeaveResult)
    (h : jsFalsy auth = true ∨
      ∃ e, upstream (auth.getD "") limit (some (stripDates (filters.getD {}))) =
        Except.error e) :
    ∃ m, (getAllLeavesTool auth limit filters upstream).response = toolError m := by
  by_cases ha : jsFalsy auth = true
  · exact ⟨("Authentication required"), by simp [getAllLeavesTool, ha, authRequiredRun]⟩
  · have ha2 : jsFalsy auth = false := by simpa using ha
    rcases h with h | ⟨e, he⟩
    · exact absurd h ha
    · exact ⟨jsOrDefault e ("Failed to fetch leaves"),
        by simp [getAllLeavesTool, ha2, he]⟩

theorem officesRun_fail (auth : Option String) (q : OfficeQuery)
    (upstream : String → OfficeQuery → Except String String)
    (h : jsFalsy auth = true ∨ ∃ e, upstream (auth.getD "") q = Except.error e) :
    ∃ m, (getAllOfficesTool auth q upstream).response = toolError m := by
  by_cases ha : jsFalsy auth = true
  · exact ⟨("Authentication required"), by simp [getAllOfficesTool, ha, authRequiredRun]⟩
  · have ha2 : jsFalsy auth = false := by simpa using ha
    rcases h with h | ⟨e, he⟩
    · exact absurd h ha
    · exact ⟨jsOrDefault e ("Failed to fetch offices"),
        by simp [getAllOfficesTool, ha2, he]⟩

/-- Claim C6: for every modelled tool invocation that fails — unknown tool
name, input not matching the named tool's schema, or a handler failure
(the authentication guard throwing, or the upstream HR call failing) —
the value delivered to the transport is a successful response whose
payload is the uniform tool-error shape with `error: true` and a message
string; the dispatch layer is a total function into successful responses,
so no raw exception crosses it. -/
theorem c6_uniform_tool_errors (name : String) (args : ToolCallArgs)
    (auth : Option String) (o : UpstreamOracles)
    (hfail : knownToolName name = false ∨ argsMatchTool name args = false ∨
      jsFalsy auth = true ∨ upstreamFails args auth o) :
    isUniformToolError (dispatchTool name args auth o) := by
  by_cases h1 : name = "getAllEmployees"
  · subst h1
    cases args with
    | employeesArgs limit filters =>
        have hf : jsFalsy auth = true ∨
            ∃ e, o.employees (auth.getD "") limit filters = Except.error e := by
          rcases hfail with hk | hm | ha | hu
          · simp [knownToolName] at hk
          · simp [argsMatchTool] at hm
          · exact Or.inl ha
          · exact Or.inr hu
        obtain ⟨m, hm2⟩ := employeesRun_fail auth limit filters o.employees hf
        exact ⟨m, by simpa [dispatchTool] using hm2⟩
    | leavesArgs limit filters =>
        exact ⟨("Invalid input for tool ") ++ ("getAllEmployees"),
          by simp [dispatchTool]⟩
    | officesArgs q =>
        exact ⟨("Invalid input for tool ") ++ ("getAllEmployees"),
          by simp [dispatchTool]⟩
    | badInput =>
        exact ⟨("Invalid input for tool ") ++ ("getAllEmployees"),
          by simp [dispatchTool]⟩
  · by_cases h2 : name = "getAllLeaves"
    · subst h2
      cases args with
      | leavesArgs limit filters =>
          have hf : jsFalsy auth = true ∨
              ∃ e, o.leaves (auth.getD "") limit
                (some (stripDates (filters.getD {}))) = Except.error e := by
            rcases hfail with hk | hm | ha | hu
            · simp [knownToolName] at hk
            · simp [argsMatchTool] at hm
            · exact Or.inl ha
            · exact Or.inr hu
          obtain ⟨m, hm2⟩ := leavesRun_fail auth limit filters o.leaves hf
          exact ⟨m, by simpa [dispatchTool] using hm2⟩
      | employeesArgs limit filters =>
          exact ⟨("Invalid input for tool ") ++ ("getAllLeaves"),
            by simp [dispatchTool]⟩
      | officesArgs q =>
          exact ⟨("Invalid input for tool ") ++ ("getAllLeaves"),
            by simp [dispatchTool]⟩
      | badInput =>
          exact ⟨("Invalid input for tool ") ++ ("getAllLeaves"),
            by simp [dispatchTool]⟩
    · by_cases h3 : name = "getAllOffices"
      · subst h3
        cases args with
        | officesArgs q =>
            have hf : jsFalsy auth = true ∨
                ∃ e, o.offices (auth.getD "") q = Except.error e := by
              rcases hfail with hk | hm | ha | hu
              · simp [knownToolName] at hk
              · simp [argsMatchTool] at hm
              · exact Or.inl ha
              · exact Or.inr hu
            obtain ⟨m, hm2⟩ := officesRun_fail auth q o.offices hf
            exact ⟨m, by simpa [dispatchTool] using hm2⟩
        | employeesArgs limit filters =>
            exact ⟨("Invalid input for tool ") ++ ("getAllOffices"),
              by simp [dispatchTool]⟩
        | leavesArgs limit filters =>
            exact ⟨("Invalid input for tool ") ++ ("getAllOffices"),
              by simp [dispatchTool]⟩
        | badInput =>
            exact ⟨("Invalid input for tool ") ++ ("getAllOffices"),
              by simp [dispatchTool]⟩
      · exact ⟨("Tool ") ++ name ++ (" not found"),
          by simp [dispatchTool, h1, h2, h3]⟩

/-- Claim C6 witness: invoking the unregistered tool name `noSuchTool`
yields the uniform tool-error payload over a successful response. -/
theorem c6_uniform_tool_errors_witness :
    isUniformToolError
      (dispatchTool ("noSuchTool") ToolCallArgs.badInput none sampleOracles) :=
  c6_uniform_tool_errors ("noSuchTool") ToolCallArgs.badInput none sampleOracles
    (Or.inl (by decide))

/-! ## Claim C8 -/

/-- Claim C8: each modelled handler takes its credential exclusively from
the invocation context's `requestInfo.headers.authorization`: when that
header value is absent or empty the handler returns the uniform
`Authentication required` payload without calling the upstream HR API and
without constructing a client; when it is present and nonempty it is
passed verbatim (scheme word included) to the `AlexisApiClient`
constructor; and the handler's run does not depend on the dispatched
envelope — in particular not on the credential the transport injected
into `params.context`. -/
theorem c8_handler_credential_source (env1 env2 : Envelope) (auth : Option String)
    (limit : Nat) (filters : Option EmployeeFilters)
    (up : String → Nat → Option EmployeeFilters → Except String String)
    (q : OfficeQuery) (upo : String → OfficeQuery → Except String String) :
    (jsFalsy auth = true →
      (getAllEmployeesTool auth limit filters up).response =
        toolError ("Authentication required") ∧
      (getAllEmployeesTool auth limit filters up).upstreamCalled = false ∧
      (getAllEmployeesTool auth limit filters up).clientToken = none ∧
      (getAllOfficesTool auth q upo).response =
        toolError ("Authentication required") ∧
      (getAllOfficesTool auth q upo).upstreamCalled = false ∧
      (getAllOfficesTool auth q upo).clientToken = none) ∧
    (∀ tk, auth = some tk → tk ≠ "" →
      (getAllEmployeesTool auth limit filters up).clientToken = some tk ∧
      (getAllOfficesTool auth q upo).clientToken = some tk) ∧
    invokeEmployeesHandler env1 auth limit filters up =
      invokeEmployeesHandler env2 auth limit filters up ∧
    invokeOfficesHandler env1 auth q upo = invokeOfficesHandler env2 auth q upo := by
  refine ⟨?_, ?_, rfl, rfl⟩
  · intro ha
    simp [getAllEmployeesTool, getAllOfficesTool, ha, authRequiredRun]
  · intro tk htk hne
    subst htk
    have ha : jsFalsy (some tk) = false := by simp [jsFalsy, hne]
    refine ⟨?_, ?_⟩
    · cases hup : up tk limit filters <;> simp [getAllEmployeesTool, ha, hup]
    · cases hupo : upo tk q <;> simp [getAllOfficesTool, ha, hupo]

/-- Claim C8 witness: with the raw header value `Bearer abc` in the
request info, both handlers construct their client with exactly that
string. -/
theorem c8_handler_credential_source_witness :
    (getAllEmployeesTool (some ("Bearer abc")) 500 none
        sampleOracles.employees).clientToken = some ("Bearer abc") ∧
    (getAllOfficesTool (some ("Bearer abc")) sampleOfficeQuery
        sampleOracles.offices).clientToken = some ("Bearer abc") :=
  (c8_handler_credential_source {} {} (some ("Bearer abc")) 500 none
      sampleOracles.employees sampleOfficeQuery sampleOracles.offices).2.1
    ("Bearer abc") rfl (by decide)

/-! ## Claim C9 -/

theorem jsSetDate_sub7 (y m d : Int) :
    jsSetDate y m (d - 7) = daysFromCivil y m d + (-7) := by
  unfold jsSetDate daysFromCivil
  ring

theorem jsSetDate_add7 (y m d : Int) :
    jsSetDate y m (d + 7) = daysFromCivil y m d + 7 := by
  unfold jsSetDate daysFromCivil
  ring

theorem buildFilterEntries_spec (fs : List (String × FilterVal))
    (hdates : ∀ p ∈ fs, (p.1 = "startDate" ∨ p.1 = "endDate") →
      (jsNewDate p.2).isSome = true) :
    buildFilterEntries fs = FilterBuild.params (fs.map specFilterEntry) := by
  induction fs with
  | nil => simp [buildFilterEntries]
  | cons p rest ih =>
      obtain ⟨k, v⟩ := p
      have hrest := ih (fun p hm hd => hdates p (List.mem_cons_of_mem _ hm) hd)
      by_cases hk : k = "startDate"
      · subst hk
        have hd := hdates (("startDate"), v) (List.mem_cons_self _ _) (Or.inl rfl)
        cases hv : jsNewDate v with
        | none => rw [hv] at hd; simp at hd
        | some c =>
            obtain ⟨y, m, d⟩ := c
            simp [buildFilterEntries, hv, hrest, specFilterEntry, jsSetDate_sub7,
              shiftedDateStr]
      · by_cases hk2 : k = "endDate"
        · subst hk2
          have hd := hdates (("endDate"), v) (List.mem_cons_self _ _) (Or.inr rfl)
          cases hv : jsNewDate v with
          | none => rw [hv] at hd; simp at hd
          | some c =>
              obtain ⟨y, m, d⟩ := c
              simp [buildFilterEntries, hk, hv, hrest, specFilterEntry,
                jsSetDate_add7, shiftedDateStr]
        · simp [buildFilterEntries, hk, hk2, hrest, specFilterEntry]

/-- Claim C9: `buildFilterParams` translates filter keys asymmetrically by
key name: on every filters object whose date keys carry values that parse
as dates, a `startDate` entry yields the parameter `filters[startDate][$gte]`
set to the date seven days earlier (rendered `YYYY-MM-DD`), an `endDate`
entry yields `filters[endDate][$lte]` set to the date seven days later,
and every other key `k` yields `filters[k][$eq]` with the value unchanged;
an absent filters object yields an empty parameter set. -/
theorem c9_filter_translation (fs : List (String × FilterVal))
    (hdates : ∀ p ∈ fs, (p.1 = "startDate" ∨ p.1 = "endDate") →
      (jsNewDate p.2).isSome = true) :
    buildFilterParams (some fs) = FilterBuild.params (fs.map specFilterEntry) ∧
    buildFilterParams none = FilterBuild.params [] :=
  ⟨buildFilterEntries_spec fs hdates, rfl⟩

/-- Claim C9 witness: a start date shifted back across a leap-February
month boundary, an end date shifted forward across a year boundary, and a
boolean key translated to an `$eq` parameter unchanged. -/
theorem c9_filter_translation_witness :
    buildFilterParams (some sampleFilters) =
      FilterBuild.params
        [(("filters[startDate][$gte]"), FilterVal.str ("2024-02-25")),
         (("filters[endDate][$lte]"), FilterVal.str ("2025-01-04")),
         (("filters[active][$eq]"), FilterVal.boolVal true)] ∧
    buildFilterParams none = FilterBuild.params [] := by
  have h := c9_filter_translation sampleFilters (by decide)
  refine ⟨h.1.trans ?_, h.2⟩
  decide

/-! ## Claim C10 -/

theorem sumCounts_bumpCount (m : AList Nat) (k : String) :
    sumCounts (bumpCount m k) = sumCounts m + 1 := by
  induction m with
  | nil => simp [bumpCount, sumCounts]
  | cons p rest ih =>
      obtain ⟨k0, n⟩ := p
      by_cases h : k0 = k
      · simp [bumpCount, h, sumCounts]
        omega
      · simp [bumpCount, h, sumCounts, ih]
        omega

theorem sumAgeGroups_bumpAge (g : AgeGroups) (a : AgeGroup) :
    sumAgeGroups (bumpAge g a) = sumAgeGroups g + 1 := by
  cases a <;> simp [bumpAge, sumAgeGroups] <;> omega

theorem demo_partition_aux (today : Int × Int × Int) (l : List Employee)
    (acc : DemographicCounts) :
    sumCounts (List.foldl (demoStep today) acc l).nationality =
      sumCounts acc.nationality + l.length ∧
    sumCounts (List.foldl (demoStep today) acc l).gender =
      sumCounts acc.gender + l.length ∧
    sumAgeGroups (List.foldl (demoStep today) acc l).ageGroups =
      sumAgeGroups acc.ageGroups + l.length := by
  induction l generalizing acc with
  | nil => simp
  | cons e rest ih =>
      have h := ih (demoStep today acc e)
      refine ⟨?_, ?_, ?_⟩
      · rw [List.foldl_cons, h.1]
        simp only [demoStep, sumCounts_bumpCount, List.length_cons]
        omega
      · rw [List.foldl_cons, h.2.1]
        simp only [demoStep, sumCounts_bumpCount, List.length_cons]
        omega
      · rw [List.foldl_cons, h.2.2]
        simp only [demoStep, sumAgeGroups_bumpAge, List.length_cons]
        omega

/-- Claim C10: `calculateDemographicCounts` partitions its input: for
every employee list (and any current date), the nationality counts, the
gender counts and the six age-group counts (`unknown` included) each sum
to the length of the input list. -/
theorem c10_demographic_partition (today : Int × Int × Int)
    (employees : List Employee) :
    sumCounts (calculateDemographicCounts today employees).nationality =
      employees.length ∧
    sumCounts (calculateDemographicCounts today employees).gender =
      employees.length ∧
    sumAgeGroups (calculateDemographicCounts today employees).ageGroups =
      employees.length := by
  have h := demo_partition_aux today employees
    { nationality := [], gender := [], ageGroups := {} }
  simpa [calculateDemographicCounts, sumCounts, sumAgeGroups] using h

end AlexisMcp
